import Mathlib

/-!
Verification of the financial-news analysis pipeline implemented by
`FinancialNewsAgent` in `src/templates/tool/src/main.py`.

The four pipeline stages (`analyze_news`, `compute_metric_updates`,
`detect_risks_opportunities`, `generate_recommendations`) are embedded
below as executable Lean functions over `ℚ` (Python float arithmetic on
the small decimal values involved is modelled exactly by rational
arithmetic; Python's `round` is `roundHalfEven` below), `String` and
`List`.  Theorems about the claims of the specification follow the
definitions.
-/

/- ------------------------------------------------------------------ -/
/- String primitives modelling the Python operations used by the code -/
/- ------------------------------------------------------------------ -/

/-- Model of Python `str.lower()` (character-wise lowering; the code only
lowers ASCII text). -/
def lowerStr (s : String) : String := ⟨s.data.map Char.toLower⟩

/-- `beginsWith needle hay`: the character list `needle` starts the
character list `hay`. -/
def beginsWith : List Char → List Char → Bool
  | [], _ => true
  | _ :: _, [] => false
  | a :: as, b :: bs => a == b && beginsWith as bs

/-- `containsChars needle hay`: `needle` occurs contiguously inside `hay`. -/
def containsChars (needle : List Char) : List Char → Bool
  | [] => beginsWith needle []
  | b :: bs => beginsWith needle (b :: bs) || containsChars needle bs

/-- Model of the Python expression `needle in hay` on strings. -/
def strHasSub (hay needle : String) : Bool := containsChars needle.data hay.data

/- ------------------------------------------------------------------ -/
/- Schemas (the pydantic models of main.py, floats embedded as ℚ)     -/
/- ------------------------------------------------------------------ -/

/-- `NewsOutput`: summaries plus the three optional aggregated deltas. -/
structure NewsOutput where
  summaries : List String
  inflation_pct : Option ℚ
  exchange_rate_pct : Option ℚ
  interest_rate_pct : Option ℚ

/-- `MetricsUpdateInput`: today's percentage deltas and yesterday's values. -/
structure MetricsUpdateInput where
  inflation_pct : ℚ
  exchange_rate_pct : ℚ
  interest_rate_pct : ℚ
  yesterday_inflation : ℚ
  yesterday_exchange_rate : ℚ
  yesterday_interest_rate : ℚ

/-- `MetricsUpdateOutput`: the updated metric snapshot. -/
structure MetricsUpdateOutput where
  inflation : ℚ
  exchange_rate : ℚ
  interest_rate : ℚ

/-- `RiskOpportunityInput`: summaries, updated metrics and the firm name. -/
structure RiskOpportunityInput where
  summaries : List String
  metrics : MetricsUpdateOutput
  firm : String

/-- `RiskOpportunityOutput`: the detected risk and opportunity texts. -/
structure RiskOpportunityOutput where
  risks : List String
  opportunities : List String

/-- `RecommendationInput`: the risk and opportunity texts to synthesize. -/
structure RecommendationInput where
  risks : List String
  opportunities : List String

/-- `RecommendationOutput`: synthesis text plus recommendation list. -/
structure RecommendationOutput where
  synthesis : String
  recommendations : List String

/-- One source's three directional signals, as appended by the loop of
`analyze_news` to `inflation_signals`, `exchange_signals` and
`interest_signals`. -/
structure SignalTriple where
  inflation : ℚ
  exchange : ℚ
  interest : ℚ

/- ------------------------------------------------------------------ -/
/- analyze_news                                                       -/
/- ------------------------------------------------------------------ -/

/-- Drops the characters of a URL up to and including the first `://`
(the scheme separator); helper for `domainOf`. -/
def dropScheme : List Char → List Char
  | ':' :: '/' :: '/' :: rest => rest
  | _ :: rest => dropScheme rest
  | [] => []

/-- Model of `urlparse(str(source_url)).netloc.lower()` for the absolute
http(s) URLs this pipeline receives: the host part between the scheme's
`://` and the next `/`, lower-cased. -/
def domainOf (url : String) : String :=
  lowerStr ⟨(dropScheme url.data).takeWhile (fun c => c != '/')⟩

/-- The per-source branch of `FinancialNewsAgent.analyze_news`: classifies
a domain and returns the summary together with the triple of signals the
loop appends for that source. -/
def classifySource (domain : String) : String × SignalTriple :=
  if strHasSub domain "bloomberg" || strHasSub domain "reuters" then
    ("Financial markets report from " ++ domain ++
       ": Mixed economic signals with focus on monetary policy",
     ⟨0.2, -0.1, 0.15⟩)
  else if strHasSub domain "fed" || strHasSub domain "centralbank" then
    ("Central bank communication from " ++ domain ++
       ": Policy stance remains data-dependent",
     ⟨0.1, 0.05, 0.25⟩)
  else if strHasSub domain "wsj" || strHasSub domain "ft.com" then
    ("Market analysis from " ++ domain ++
       ": Corporate earnings and economic indicators show resilience",
     ⟨0.05, 0.1, 0.0⟩)
  else
    ("Economic news from " ++ domain ++
       ": General market developments and policy discussions",
     ⟨0.0, 0.0, 0.05⟩)

/-- `statistics.mean` on an exact list of rationals: sum divided by count. -/
def pymean (xs : List ℚ) : ℚ := xs.sum / (xs.length : ℚ)

/-- `statistics.mean(signals) if signals else None`: the aggregation
applied to each signal channel at the end of `analyze_news`. -/
def aggregateSignal (xs : List ℚ) : Option ℚ :=
  if xs = [] then none else some (pymean xs)

/-- Channel-wise aggregation of a sequence of per-source signal triples:
exactly the three `aggregateSignal` applications of `analyze_news`, taking
the triples the loop produced as input. -/
def aggregate_triples (ts : List SignalTriple) : Option ℚ × Option ℚ × Option ℚ :=
  (aggregateSignal (ts.map (·.inflation)),
   aggregateSignal (ts.map (·.exchange)),
   aggregateSignal (ts.map (·.interest)))

/-- The body of `FinancialNewsAgent.analyze_news`, abstracted over the
source list (the method itself hard-codes the list, see `analyze_news`):
classify every source by domain, collect the summaries and the three
signal channels, aggregate each channel. -/
def analyze_news_loop (sources : List String) : NewsOutput :=
  let classified := sources.map (fun src => classifySource (domainOf src))
  { summaries := classified.map (fun c => c.1)
    inflation_pct := aggregateSignal (classified.map (fun c => c.2.inflation))
    exchange_rate_pct := aggregateSignal (classified.map (fun c => c.2.exchange))
    interest_rate_pct := aggregateSignal (classified.map (fun c => c.2.interest)) }

/-- `FinancialNewsAgent.analyze_news`: takes no sources argument; every
invocation analyzes the same three hard-coded URLs. -/
def analyze_news : NewsOutput :=
  analyze_news_loop
    ["https://www.google.com/finance/",
     "https://bloomberg.com/article",
     "https://fed.gov/announcement"]

/- ------------------------------------------------------------------ -/
/- compute_metric_updates                                             -/
/- ------------------------------------------------------------------ -/

/-- Python's `round` to an integer: nearest integer, ties to the even
one (banker's rounding). -/
def roundHalfEven (x : ℚ) : ℤ :=
  if x - ⌊x⌋ < 1/2 then ⌊x⌋
  else if x - ⌊x⌋ > 1/2 then ⌊x⌋ + 1
  else if 2 ∣ ⌊x⌋ then ⌊x⌋ else ⌊x⌋ + 1

/-- Python's `round(x, ndigits)`. -/
def roundTo (ndigits : ℕ) (x : ℚ) : ℚ :=
  (roundHalfEven (x * 10 ^ ndigits) : ℚ) / 10 ^ ndigits

/-- `FinancialNewsAgent.compute_metric_updates`: apply each percentage
delta to yesterday's value, clamp to the bounds, round. -/
def compute_metric_updates (data : MetricsUpdateInput) : MetricsUpdateOutput :=
  let new_inflation := data.yesterday_inflation * (1 + data.inflation_pct / 100)
  let new_exchange_rate :=
    data.yesterday_exchange_rate * (1 + data.exchange_rate_pct / 100)
  let new_interest_rate :=
    data.yesterday_interest_rate * (1 + data.interest_rate_pct / 100)
  let bounded_inflation := max 0 (min new_inflation 20)
  let bounded_exchange_rate := max 0.1 new_exchange_rate
  let bounded_interest_rate := max 0 (min new_interest_rate 15)
  { inflation := roundTo 2 bounded_inflation
    exchange_rate := roundTo 4 bounded_exchange_rate
    interest_rate := roundTo 2 bounded_interest_rate }

/- ------------------------------------------------------------------ -/
/- detect_risks_opportunities                                         -/
/- ------------------------------------------------------------------ -/

/-- Rendering of a metric value into a finding text.  It abstracts
Python's float formatting by the rational's canonical rendering (no claim
inspects the digits of the interpolated number). -/
def numStr (q : ℚ) : String := toString q

/-- The negative sentiment keywords of `detect_risks_opportunities`. -/
def negative_keywords : List String :=
  ["uncertainty", "volatility", "decline", "crisis", "recession"]

/-- The positive sentiment keywords of `detect_risks_opportunities`. -/
def positive_keywords : List String :=
  ["growth", "expansion", "bullish", "optimistic", "recovery"]

/-- The generic sentiment risk text of `detect_risks_opportunities`. -/
def sentimentRiskText (firm : String) : String :=
  "Market uncertainty may impact " ++ firm ++ "\x27s business confidence"

/-- The generic sentiment opportunity text of `detect_risks_opportunities`. -/
def sentimentOppText (firm : String) : String :=
  "Positive market sentiment creates growth opportunities for " ++ firm

/-- The summary loop at the end of `detect_risks_opportunities`: for each
summary, in order, append the generic risk when a negative keyword occurs
in the lowered summary, and the generic opportunity when a positive
keyword occurs. -/
def sentimentFindings (firm : String) : List String → List String × List String
  | [] => ([], [])
  | summary :: rest =>
    let summary_lower := lowerStr summary
    let r :=
      if negative_keywords.any (fun k => strHasSub summary_lower k) then
        [sentimentRiskText firm]
      else []
    let o :=
      if positive_keywords.any (fun k => strHasSub summary_lower k) then
        [sentimentOppText firm]
      else []
    let tail := sentimentFindings firm rest
    (r ++ tail.1, o ++ tail.2)

/-- `FinancialNewsAgent.detect_risks_opportunities`: the three metric
threshold rules followed by the per-summary sentiment scan, appending to
the risk and opportunity lists in the source's order. -/
def detect_risks_opportunities (data : RiskOpportunityInput) : RiskOpportunityOutput :=
  let inflationFindings : List String × List String :=
    if data.metrics.inflation > 4.0 then
      (["High inflation (" ++ numStr data.metrics.inflation ++ "%) may erode "
          ++ data.firm ++ "\x27s profit margins"],
       ["Pricing power opportunities for " ++ data.firm
          ++ " in inflationary environment"])
    else if data.metrics.inflation < 1.0 then
      (["Deflationary pressure (" ++ numStr data.metrics.inflation
          ++ "%) may signal economic weakness"], [])
    else ([], [])
  let interestFindings : List String × List String :=
    if data.metrics.interest_rate > 6.0 then
      (["High interest rates (" ++ numStr data.metrics.interest_rate
          ++ "%) increase " ++ data.firm ++ "\x27s borrowing costs"],
       ["Higher yields on " ++ data.firm ++ "\x27s cash investments"])
    else if data.metrics.interest_rate < 2.0 then
      ([],
       ["Low borrowing costs (" ++ numStr data.metrics.interest_rate
          ++ "%) enable expansion financing for " ++ data.firm])
    else ([], [])
  let exchangeFindings : List String × List String :=
    if data.metrics.exchange_rate > 1.2 then
      (["Strong currency may hurt " ++ data.firm ++ "\x27s export competitiveness"],
       ["Favorable conditions for " ++ data.firm ++ "\x27s international acquisitions"])
    else if data.metrics.exchange_rate < 0.9 then
      (["Higher import costs for " ++ data.firm ++ "\x27s international operations"],
       ["Weak currency boosts " ++ data.firm ++ "\x27s export revenues"])
    else ([], [])
  let sentiment := sentimentFindings data.firm data.summaries
  { risks := inflationFindings.1 ++ interestFindings.1 ++ exchangeFindings.1
      ++ sentiment.1
    opportunities := inflationFindings.2 ++ interestFindings.2
      ++ exchangeFindings.2 ++ sentiment.2 }

/- ------------------------------------------------------------------ -/
/- generate_recommendations                                           -/
/- ------------------------------------------------------------------ -/

/-- The defensive synthesis text (risk ratio above 0.6). -/
def defensiveSynthesis : String :=
  "Current market conditions present significant challenges with elevated risks across "
    ++ "multiple dimensions. A defensive strategy focusing on risk mitigation and capital "
    ++ "preservation is recommended."

/-- The aggressive growth synthesis text (risk ratio below 0.3). -/
def aggressiveSynthesis : String :=
  "Market environment is favorable with abundant opportunities outweighing risks. "
    ++ "An aggressive growth strategy leveraging current conditions is advisable."

/-- The balanced synthesis text (all remaining risk ratios). -/
def balancedSynthesis : String :=
  "Balanced risk-opportunity landscape requires a measured approach combining "
    ++ "selective risk mitigation with strategic opportunity capture."

/-- The recommendation pair appended when some risk mentions inflation. -/
def inflationRecs : List String :=
  ["Implement dynamic pricing strategies to maintain margins amid inflationary pressures",
   "Consider inflation-hedged investments and contracts"]

/-- The recommendation pair appended when some risk mentions interest rates. -/
def interestRecs : List String :=
  ["Prioritize debt refinancing before rates increase further",
   "Accelerate capital-intensive projects while financing costs remain manageable"]

/-- The recommendation pair appended when some risk mentions currency or exchange. -/
def currencyRecs : List String :=
  ["Implement currency hedging strategies for international operations",
   "Diversify revenue streams across multiple currencies"]

/-- The recommendation pair appended when some opportunity mentions growth or expansion. -/
def growthRecs : List String :=
  ["Accelerate market expansion plans to capitalize on favorable conditions",
   "Increase marketing and sales investments to capture market share"]

/-- The recommendation pair appended when some opportunity mentions acquisitions or investment. -/
def acquisitionRecs : List String :=
  ["Evaluate strategic acquisition opportunities while valuations are attractive",
   "Strengthen balance sheet to take advantage of investment opportunities"]

/-- The three default recommendations used when no trigger fires. -/
def defaultRecs : List String :=
  ["Monitor economic indicators closely for emerging trends",
   "Maintain operational flexibility to adapt to changing conditions",
   "Strengthen stakeholder communication regarding market outlook"]

/-- `risk_ratio` as computed by `generate_recommendations`:
`len(risks) / total_items` when `total_items > 0`, else `0`. -/
def risk_ratio_of (risks opportunities : List String) : ℚ :=
  let total_items := risks.length + opportunities.length
  if total_items > 0 then (risks.length : ℚ) / (total_items : ℚ) else 0

/-- The five additive substring triggers of `generate_recommendations`,
concatenated in trigger-check order. -/
def triggeredRecs (data : RecommendationInput) : List String :=
  (if data.risks.any (fun x => strHasSub (lowerStr x) "inflation")
     then inflationRecs else []) ++
  (if data.risks.any (fun x => strHasSub (lowerStr x) "interest rate")
     then interestRecs else []) ++
  (if data.risks.any (fun x =>
       strHasSub (lowerStr x) "currency" || strHasSub (lowerStr x) "exchange")
     then currencyRecs else []) ++
  (if data.opportunities.any (fun x =>
       strHasSub (lowerStr x) "growth" || strHasSub (lowerStr x) "expansion")
     then growthRecs else []) ++
  (if data.opportunities.any (fun x =>
       strHasSub (lowerStr x) "acquisition" || strHasSub (lowerStr x) "investment")
     then acquisitionRecs else [])

/-- `FinancialNewsAgent.generate_recommendations`: select the synthesis
from the risk ratio by strict comparisons, collect the triggered
recommendations, fall back to the three defaults when none fired. -/
def generate_recommendations (data : RecommendationInput) : RecommendationOutput :=
  let r := risk_ratio_of data.risks data.opportunities
  let synthesis :=
    if r > 0.6 then defensiveSynthesis
    else if r < 0.3 then aggressiveSynthesis
    else balancedSynthesis
  let recommendations := triggeredRecs data
  let recommendations := if recommendations = [] then defaultRecs else recommendations
  { synthesis := synthesis, recommendations := recommendations }

/- ------------------------------------------------------------------ -/
/- Rounding lemmas                                                    -/
/- ------------------------------------------------------------------ -/

lemma roundHalfEven_mem (x : ℚ) :
    roundHalfEven x = ⌊x⌋ ∨ roundHalfEven x = ⌊x⌋ + 1 := by
  unfold roundHalfEven
  split_ifs <;> simp

lemma roundHalfEven_intCast (m : ℤ) : roundHalfEven (m : ℚ) = m := by
  unfold roundHalfEven
  rw [Int.floor_intCast]
  norm_num

lemma le_roundHalfEven (m : ℤ) (x : ℚ) (h : (m : ℚ) ≤ x) :
    m ≤ roundHalfEven x := by
  have hf : m ≤ ⌊x⌋ := Int.le_floor.mpr h
  rcases roundHalfEven_mem x with h1 | h1 <;> omega

lemma roundHalfEven_le (m : ℤ) (x : ℚ) (h : x ≤ (m : ℚ)) :
    roundHalfEven x ≤ m := by
  rcases eq_or_lt_of_le h with heq | hlt
  · rw [heq, roundHalfEven_intCast]
  · have hf : ⌊x⌋ < m := by
      have h2 : (⌊x⌋ : ℚ) < (m : ℚ) := lt_of_le_of_lt (Int.floor_le x) hlt
      exact_mod_cast h2
    rcases roundHalfEven_mem x with h1 | h1 <;> omega

lemma le_roundTo (n : ℕ) (m : ℤ) (x : ℚ) (h : (m : ℚ) ≤ x * 10 ^ n) :
    (m : ℚ) / 10 ^ n ≤ roundTo n x := by
  unfold roundTo
  have h1 : (m : ℚ) ≤ (roundHalfEven (x * 10 ^ n) : ℚ) := by
    exact_mod_cast le_roundHalfEven m _ h
  have hp : (0 : ℚ) < 10 ^ n := by positivity
  exact (div_le_div_iff_of_pos_right hp).mpr h1

lemma roundTo_le (n : ℕ) (m : ℤ) (x : ℚ) (h : x * 10 ^ n ≤ (m : ℚ)) :
    roundTo n x ≤ (m : ℚ) / 10 ^ n := by
  unfold roundTo
  have h1 : (roundHalfEven (x * 10 ^ n) : ℚ) ≤ (m : ℚ) := by
    exact_mod_cast roundHalfEven_le m _ h
  have hp : (0 : ℚ) < 10 ^ n := by positivity
  exact (div_le_div_iff_of_pos_right hp).mpr h1

lemma compute_inflation_eq (data : MetricsUpdateInput) :
    (compute_metric_updates data).inflation =
      roundTo 2 (max 0 (min (data.yesterday_inflation * (1 + data.inflation_pct / 100)) 20)) :=
  rfl

lemma compute_exchange_eq (data : MetricsUpdateInput) :
    (compute_metric_updates data).exchange_rate =
      roundTo 4 (max 0.1 (data.yesterday_exchange_rate * (1 + data.exchange_rate_pct / 100))) :=
  rfl

lemma compute_interest_eq (data : MetricsUpdateInput) :
    (compute_metric_updates data).interest_rate =
      roundTo 2 (max 0 (min (data.yesterday_interest_rate * (1 + data.interest_rate_pct / 100)) 15)) :=
  rfl

lemma roundTo_clamp_bounds (x : ℚ) (c : ℤ) (hc : 0 ≤ c) :
    0 ≤ roundTo 2 (max 0 (min x (c : ℚ))) ∧ roundTo 2 (max 0 (min x (c : ℚ))) ≤ (c : ℚ) := by
  constructor
  · have h : ((0 : ℤ) : ℚ) ≤ max 0 (min x (c : ℚ)) * 10 ^ 2 := by
      have h1 : (0 : ℚ) ≤ max 0 (min x (c : ℚ)) := le_max_left _ _
      positivity
    have h2 := le_roundTo 2 0 _ h
    norm_num at h2
    exact h2
  · have hb : max 0 (min x (c : ℚ)) ≤ (c : ℚ) := by
      have hcq : (0 : ℚ) ≤ (c : ℚ) := by exact_mod_cast hc
      exact max_le hcq (min_le_right _ _)
    have h : max 0 (min x (c : ℚ)) * 10 ^ 2 ≤ ((100 * c : ℤ) : ℚ) := by
      push_cast
      nlinarith
    have h2 := roundTo_le 2 (100 * c) _ h
    have h3 : ((100 * c : ℤ) : ℚ) / 10 ^ 2 = (c : ℚ) := by
      push_cast
      ring
    rwa [h3] at h2

lemma roundTo_exchange_bound (x : ℚ) : (0.1 : ℚ) ≤ roundTo 4 (max 0.1 x) := by
  have h1 : (0.1 : ℚ) ≤ max 0.1 x := le_max_left _ _
  have h : ((1000 : ℤ) : ℚ) ≤ max 0.1 x * 10 ^ 4 := by
    push_cast
    nlinarith
  have h2 := le_roundTo 4 1000 _ h
  have h3 : ((1000 : ℤ) : ℚ) / 10 ^ 4 = (0.1 : ℚ) := by norm_num
  rwa [h3] at h2

/- ------------------------------------------------------------------ -/
/- Evaluation lemmas for analyze_news                                 -/
/- ------------------------------------------------------------------ -/

lemma analyze_news_summaries_eq :
    analyze_news.summaries =
      ["Economic news from www.google.com: General market developments and policy discussions",
       "Financial markets report from bloomberg.com: Mixed economic signals with focus on monetary policy",
       "Central bank communication from fed.gov: Policy stance remains data-dependent"] := by
  rfl

lemma analyze_news_inflation_eq :
    analyze_news.inflation_pct = some (pymean [0.0, 0.2, 0.1]) := rfl

lemma analyze_news_exchange_eq :
    analyze_news.exchange_rate_pct = some (pymean [0.0, -0.1, 0.05]) := rfl

lemma analyze_news_interest_eq :
    analyze_news.interest_rate_pct = some (pymean [0.05, 0.15, 0.25]) := rfl

/- ------------------------------------------------------------------ -/
/- Lemmas about generate_recommendations and the sentiment scan       -/
/- ------------------------------------------------------------------ -/

lemma generate_recommendations_synthesis_eq (data : RecommendationInput) :
    (generate_recommendations data).synthesis =
      if risk_ratio_of data.risks data.opportunities > 0.6 then defensiveSynthesis
      else if risk_ratio_of data.risks data.opportunities < 0.3 then aggressiveSynthesis
      else balancedSynthesis := rfl

lemma generate_recommendations_recs_eq (data : RecommendationInput) :
    (generate_recommendations data).recommendations =
      if triggeredRecs data = [] then defaultRecs else triggeredRecs data := rfl

lemma sentimentFindings_risks_eq (firm : String) (ss : List String) :
    (sentimentFindings firm ss).1 =
      List.replicate
        (ss.countP fun s => negative_keywords.any fun k => strHasSub (lowerStr s) k)
        (sentimentRiskText firm) := by
  induction ss with
  | nil => simp [sentimentFindings]
  | cons s rest ih =>
    simp only [sentimentFindings, List.countP_cons, ih]
    by_cases hn : (negative_keywords.any fun k => strHasSub (lowerStr s) k) = true
    · simp [hn, List.replicate_succ]
    · simp [hn]

lemma sentimentFindings_opps_eq (firm : String) (ss : List String) :
    (sentimentFindings firm ss).2 =
      List.replicate
        (ss.countP fun s => positive_keywords.any fun k => strHasSub (lowerStr s) k)
        (sentimentOppText firm) := by
  induction ss with
  | nil => simp [sentimentFindings]
  | cons s rest ih =>
    simp only [sentimentFindings, List.countP_cons, ih]
    by_cases hp : (positive_keywords.any fun k => strHasSub (lowerStr s) k) = true
    · simp [hp, List.replicate_succ]
    · simp [hp]

/- ------------------------------------------------------------------ -/
/- Claim theorems                                                     -/
/- ------------------------------------------------------------------ -/

/-- C1: for every numeric input to `compute_metric_updates` (any deltas and
any yesterday values, including out-of-range ones), the returned snapshot
satisfies `0 ≤ inflation ≤ 20`, `exchange_rate ≥ 0.1` and
`0 ≤ interest_rate ≤ 15`; the bounds hold after the final rounding step
(2 decimals for inflation and interest_rate, 4 for exchange_rate), and
out-of-range values are clamped, never rejected (the function is total). -/
theorem C1_compute_metric_updates_bounds (data : MetricsUpdateInput) :
    0 ≤ (compute_metric_updates data).inflation ∧
    (compute_metric_updates data).inflation ≤ 20 ∧
    (0.1 : ℚ) ≤ (compute_metric_updates data).exchange_rate ∧
    0 ≤ (compute_metric_updates data).interest_rate ∧
    (compute_metric_updates data).interest_rate ≤ 15 := by
  rw [compute_inflation_eq, compute_exchange_eq, compute_interest_eq]
  have h20 := roundTo_clamp_bounds
    (data.yesterday_inflation * (1 + data.inflation_pct / 100)) 20 (by norm_num)
  have h15 := roundTo_clamp_bounds
    (data.yesterday_interest_rate * (1 + data.interest_rate_pct / 100)) 15 (by norm_num)
  have hex := roundTo_exchange_bound
    (data.yesterday_exchange_rate * (1 + data.exchange_rate_pct / 100))
  norm_num at h20 h15
  exact ⟨h20.1, h20.2, hex, h15.1, h15.2⟩

/-- C2 counterexample: `analyze_news` cannot be called on a caller-supplied
single-element source list; the code's only behavior returns three
summaries, with `inflation_pct` 0.1 (not 0.2) and `exchange_rate_pct`
-1/60 (not -0.1), refuting the claimed result of
`analyzeNews(["https://bloomberg.com/x"])`. -/
theorem C2_counterexample :
    analyze_news.summaries.length = 3 ∧
    analyze_news.inflation_pct ≠ some 0.2 ∧
    analyze_news.exchange_rate_pct ≠ some (-0.1) := by
  refine ⟨rfl, ?_, ?_⟩
  · rw [analyze_news_inflation_eq]
    norm_num [pymean]
  · rw [analyze_news_exchange_eq]
    norm_num [pymean]

/-- C2 amended: `analyze_news` takes no sources argument — it always
analyzes the three hard-coded URLs — but its per-source loop applied to
the single source list `["https://bloomberg.com/x"]` yields exactly one
summary together with present deltas `inflation_pct = 0.2`,
`exchange_rate_pct = -0.1` and `interest_rate_pct = 0.15`. -/
theorem C2_amended_hardcoded_loop :
    (analyze_news_loop ["https://bloomberg.com/x"]).summaries =
      ["Financial markets report from bloomberg.com: Mixed economic signals with focus on monetary policy"] ∧
    (analyze_news_loop ["https://bloomberg.com/x"]).inflation_pct = some 0.2 ∧
    (analyze_news_loop ["https://bloomberg.com/x"]).exchange_rate_pct = some (-0.1) ∧
    (analyze_news_loop ["https://bloomberg.com/x"]).interest_rate_pct = some 0.15 ∧
    analyze_news =
      analyze_news_loop
        ["https://www.google.com/finance/",
         "https://bloomberg.com/article",
         "https://fed.gov/announcement"] := by
  refine ⟨rfl, ?_, ?_, ?_, rfl⟩
  · have h : (analyze_news_loop ["https://bloomberg.com/x"]).inflation_pct =
        some (pymean [0.2]) := rfl
    rw [h]
    norm_num [pymean]
  · have h : (analyze_news_loop ["https://bloomberg.com/x"]).exchange_rate_pct =
        some (pymean [-0.1]) := rfl
    rw [h]
    norm_num [pymean]
  · have h : (analyze_news_loop ["https://bloomberg.com/x"]).interest_rate_pct =
        some (pymean [0.15]) := rfl
    rw [h]
    norm_num [pymean]

/-- C3: the synthesis text of `generate_recommendations` is selected from
`risk_ratio = |risks| / (|risks| + |opportunities|)` by strict
comparisons — above 0.6 defensive, below 0.3 aggressive, otherwise
balanced — and in particular a risk ratio of exactly 0.6 or exactly 0.3
yields the balanced text. -/
theorem C3_synthesis_strict_boundaries (risks opportunities : List String) :
    (risk_ratio_of risks opportunities > 0.6 →
      (generate_recommendations ⟨risks, opportunities⟩).synthesis = defensiveSynthesis) ∧
    (risk_ratio_of risks opportunities < 0.3 →
      (generate_recommendations ⟨risks, opportunities⟩).synthesis = aggressiveSynthesis) ∧
    (0.3 ≤ risk_ratio_of risks opportunities → risk_ratio_of risks opportunities ≤ 0.6 →
      (generate_recommendations ⟨risks, opportunities⟩).synthesis = balancedSynthesis) ∧
    (risk_ratio_of risks opportunities = 0.6 →
      (generate_recommendations ⟨risks, opportunities⟩).synthesis = balancedSynthesis) ∧
    (risk_ratio_of risks opportunities = 0.3 →
      (generate_recommendations ⟨risks, opportunities⟩).synthesis = balancedSynthesis) := by
  have hs := generate_recommendations_synthesis_eq ⟨risks, opportunities⟩
  refine ⟨fun h => ?_, fun h => ?_, fun h1 h2 => ?_, fun h => ?_, fun h => ?_⟩ <;> rw [hs]
  · rw [if_pos h]
  · rw [if_neg (by norm_num at h ⊢; linarith), if_pos h]
  · rw [if_neg (by norm_num at h2 ⊢; linarith), if_neg (by norm_num at h1 ⊢; linarith)]
  · rw [if_neg (by rw [h]; norm_num), if_neg (by rw [h]; norm_num)]
  · rw [if_neg (by rw [h]; norm_num), if_neg (by rw [h]; norm_num)]

/-- C3 witness: with 3 risks and 2 opportunities the risk ratio is exactly
0.6, and with 3 risks and 7 opportunities exactly 0.3; both select the
balanced synthesis text. -/
theorem C3_boundary_witness :
    (generate_recommendations ⟨["r1", "r2", "r3"], ["o1", "o2"]⟩).synthesis
      = balancedSynthesis ∧
    (generate_recommendations
        ⟨["r1", "r2", "r3"], ["o1", "o2", "o3", "o4", "o5", "o6", "o7"]⟩).synthesis
      = balancedSynthesis := by
  constructor
  · exact (C3_synthesis_strict_boundaries _ _).2.2.2.1 (by norm_num [risk_ratio_of])
  · exact (C3_synthesis_strict_boundaries _ _).2.2.2.2 (by norm_num [risk_ratio_of])

/-- C4: for every non-empty sequence of per-source signal triples each
aggregated delta is the arithmetic mean of its channel, and for the empty
sequence each delta is absent (`none`), not `0`. -/
theorem C4_aggregate_mean_or_absent (ts : List SignalTriple) :
    (ts ≠ [] →
      aggregate_triples ts =
        (some ((ts.map (·.inflation)).sum / (ts.length : ℚ)),
         some ((ts.map (·.exchange)).sum / (ts.length : ℚ)),
         some ((ts.map (·.interest)).sum / (ts.length : ℚ)))) ∧
    (ts = [] → aggregate_triples ts = (none, none, none)) := by
  constructor
  · intro h
    simp [aggregate_triples, aggregateSignal, pymean, List.map_eq_nil_iff, h,
      List.length_map]
  · intro h
    subst h
    simp [aggregate_triples, aggregateSignal]

/-- C4 witness: a singleton triple aggregates to its own three values,
each present. -/
theorem C4_singleton_witness :
    aggregate_triples [⟨0.2, -0.1, 0.15⟩] = (some 0.2, some (-0.1), some 0.15) := by
  have h := (C4_aggregate_mean_or_absent [⟨0.2, -0.1, 0.15⟩]).1 (by simp)
  rw [h]
  norm_num

/-- C5: `detect_risks_opportunities` with metrics inflation 5, exchange
rate 1, interest rate 4 (the rational values of the floats 5.0, 1.0, 4.0),
firm "Acme" and no summaries returns exactly one risk — the high-inflation
margin-erosion text mentioning Acme — and exactly one opportunity — the
pricing-power text mentioning Acme — and no interest-rate or exchange-rate
findings. -/
theorem C5_acme_inflation_only :
    (detect_risks_opportunities ⟨[], ⟨5, 1, 4⟩, "Acme"⟩).risks =
      ["High inflation (5%) may erode Acme\x27s profit margins"] ∧
    (detect_risks_opportunities ⟨[], ⟨5, 1, 4⟩, "Acme"⟩).opportunities =
      ["Pricing power opportunities for Acme in inflationary environment"] ∧
    strHasSub "High inflation (5%) may erode Acme\x27s profit margins" "Acme" = true ∧
    strHasSub "Pricing power opportunities for Acme in inflationary environment" "Acme"
      = true := by
  have h1 : ((5 : ℚ) > 4.0) := by norm_num
  have h2 : ¬ ((4 : ℚ) > 6.0) := by norm_num
  have h3 : ¬ ((4 : ℚ) < 2.0) := by norm_num
  have h4 : ¬ ((1 : ℚ) > 1.2) := by norm_num
  have h5 : ¬ ((1 : ℚ) < 0.9) := by norm_num
  refine ⟨?_, ?_, by decide, by decide⟩ <;>
    · simp only [detect_risks_opportunities, sentimentFindings, if_pos h1, if_neg h2,
        if_neg h3, if_neg h4, if_neg h5]
      decide

/-- C6: `generate_recommendations` always returns a non-empty
recommendation list, and when no substring trigger fires it returns
exactly the three fixed default recommendations in order. -/
theorem C6_recommendations_nonempty_default (data : RecommendationInput) :
    0 < (generate_recommendations data).recommendations.length ∧
    (triggeredRecs data = [] →
      (generate_recommendations data).recommendations = defaultRecs) := by
  constructor
  · rw [generate_recommendations_recs_eq]
    by_cases h : triggeredRecs data = []
    · rw [if_pos h]
      norm_num [defaultRecs]
    · rw [if_neg h]
      exact List.length_pos.mpr h
  · intro h
    rw [generate_recommendations_recs_eq, if_pos h]

/-- C6 witness: with both input lists empty no trigger fires, and the
output is the non-empty default recommendation list. -/
theorem C6_default_witness :
    0 < (generate_recommendations ⟨[], []⟩).recommendations.length ∧
    (generate_recommendations ⟨[], []⟩).recommendations = defaultRecs :=
  ⟨(C6_recommendations_nonempty_default ⟨[], []⟩).1,
   (C6_recommendations_nonempty_default ⟨[], []⟩).2 rfl⟩

/-- C7 counterexample: on deltas (0.2, -0.1, 0.15) and yesterday's values
(3.0, 1.15, 4.5) the code returns `exchange_rate = 1.1488`, not the
claimed 1.1489: the exact product 1.15 * 0.999 = 1.14885 is a tie at four
decimals, and round-half-to-even rounds it down. -/
theorem C7_counterexample :
    (compute_metric_updates ⟨0.2, -0.1, 0.15, 3.0, 1.15, 4.5⟩).exchange_rate ≠ 1.1489 := by
  norm_num [compute_metric_updates, roundTo, roundHalfEven, max_def, min_def]

/-- C7 amended: `compute_metric_updates` on deltas (0.2, -0.1, 0.15) and
yesterday's values (3.0, 1.15, 4.5) returns inflation 3.01, exchange rate
1.1488 and interest rate 4.51, following `new = previous * (1 +
delta_pct / 100)`, clamping, then rounding to 2/4/2 decimal places. -/
theorem C7_amended_example :
    (compute_metric_updates ⟨0.2, -0.1, 0.15, 3.0, 1.15, 4.5⟩).inflation = 3.01 ∧
    (compute_metric_updates ⟨0.2, -0.1, 0.15, 3.0, 1.15, 4.5⟩).exchange_rate = 1.1488 ∧
    (compute_metric_updates ⟨0.2, -0.1, 0.15, 3.0, 1.15, 4.5⟩).interest_rate = 4.51 := by
  refine ⟨?_, ?_, ?_⟩ <;>
    norm_num [compute_metric_updates, roundTo, roundHalfEven, max_def, min_def]

/-- C8: signal aggregation is order-independent — permuting the sequence
of per-source signal triples leaves all three channel means (and their
presence) unchanged. -/
theorem C8_aggregate_order_independent (ts ts' : List SignalTriple)
    (h : ts.Perm ts') : aggregate_triples ts = aggregate_triples ts' := by
  have key : ∀ f : SignalTriple → ℚ,
      aggregateSignal (ts.map f) = aggregateSignal (ts'.map f) := by
    intro f
    have hp : (ts.map f).Perm (ts'.map f) := h.map f
    have hcond : (ts.map f = []) ↔ (ts'.map f = []) := by
      constructor
      · intro e
        rw [e] at hp
        exact hp.nil_eq.symm
      · intro e
        rw [e] at hp
        exact hp.eq_nil
    unfold aggregateSignal pymean
    rw [hp.sum_eq, hp.length_eq]
    by_cases hx : ts'.map f = []
    · rw [if_pos (hcond.mpr hx), if_pos hx]
    · rw [if_neg (fun e => hx (hcond.mp e)), if_neg hx]
  unfold aggregate_triples
  rw [key (fun t => t.inflation), key (fun t => t.exchange), key (fun t => t.interest)]

/-- C8 witness: swapping two concrete signal triples leaves the
aggregation unchanged. -/
theorem C8_swap_witness :
    aggregate_triples [⟨0.2, -0.1, 0.15⟩, ⟨0.1, 0.05, 0.25⟩] =
      aggregate_triples [⟨0.1, 0.05, 0.25⟩, ⟨0.2, -0.1, 0.15⟩] :=
  C8_aggregate_order_independent _ _ (List.Perm.swap _ _ _)

/-- C9: `analyze_news` takes no sources argument — every invocation
analyzes the hard-coded URLs google.com/finance, bloomberg.com and
fed.gov — so it always returns exactly three summaries, and the three
optional delta fields are always present, with values
mean(0.0, 0.2, 0.1) = 0.1, mean(0.0, -0.1, 0.05) = -1/60 and
mean(0.05, 0.15, 0.25) = 0.15. -/
theorem C9_analyze_news_hardcoded :
    analyze_news.summaries.length = 3 ∧
    analyze_news.summaries =
      ["Economic news from www.google.com: General market developments and policy discussions",
       "Financial markets report from bloomberg.com: Mixed economic signals with focus on monetary policy",
       "Central bank communication from fed.gov: Policy stance remains data-dependent"] ∧
    analyze_news.inflation_pct = some 0.1 ∧
    analyze_news.exchange_rate_pct = some (-1/60) ∧
    analyze_news.interest_rate_pct = some 0.15 ∧
    analyze_news =
      analyze_news_loop
        ["https://www.google.com/finance/",
         "https://bloomberg.com/article",
         "https://fed.gov/announcement"] := by
  refine ⟨rfl, analyze_news_summaries_eq, ?_, ?_, ?_, rfl⟩
  · rw [analyze_news_inflation_eq]
    norm_num [pymean]
  · rw [analyze_news_exchange_eq]
    norm_num [pymean]
  · rw [analyze_news_interest_eq]
    norm_num [pymean]

/-- C10: in the sentiment scan of `detect_risks_opportunities` every
summary is scanned once and each keyword set is tested by one existential
check, so the generic risk findings are exactly one copy of the fixed
"market uncertainty" text per negatively-matching summary, the generic
opportunity findings exactly one copy of the fixed "positive sentiment"
text per positively-matching summary, and the total number of generic
sentiment findings is at most twice the number of summaries (so duplicate
generic texts can only come from distinct summaries). -/
theorem C10_sentiment_scan_counts (firm : String) (summaries : List String) :
    (sentimentFindings firm summaries).1 =
      List.replicate
        (summaries.countP fun s => negative_keywords.any fun k => strHasSub (lowerStr s) k)
        (sentimentRiskText firm) ∧
    (sentimentFindings firm summaries).2 =
      List.replicate
        (summaries.countP fun s => positive_keywords.any fun k => strHasSub (lowerStr s) k)
        (sentimentOppText firm) ∧
    (sentimentFindings firm summaries).1.length + (sentimentFindings firm summaries).2.length
      ≤ 2 * summaries.length := by
  refine ⟨sentimentFindings_risks_eq firm summaries, sentimentFindings_opps_eq firm summaries, ?_⟩
  rw [sentimentFindings_risks_eq firm summaries, sentimentFindings_opps_eq firm summaries]
  have hn : (summaries.countP fun s => negative_keywords.any fun k => strHasSub (lowerStr s) k)
      ≤ summaries.length := List.countP_le_length _
  have hp : (summaries.countP fun s => positive_keywords.any fun k => strHasSub (lowerStr s) k)
      ≤ summaries.length := List.countP_le_length _
  simp only [List.length_replicate]
  omega
